import Mathlib

/-!
Verification development for `parse.py` (viveParse): a read-only reporting
utility that walks a Vive (Lutron) sqlite database and prints an HTML
outline of the system to stdout.

The Python source is shallowly embedded below:
* each sqlite table is a `List` of row structures,
* each `SELECT` is a pure Lean function over those lists
  (`JOIN` = nested bind + filter, `DISTINCT` = `List.dedup`),
* `print` output is modelled as a `List String` of emitted lines,
* the uncaught Python exception raised at `print("...")%(...)`
  (`None % str` → `TypeError`) is modelled with `Option PyErr`.
-/

set_option maxHeartbeats 1000000
set_option maxRecDepth 100000

namespace ViveParse

/-! ### Table row types (sqlite schema as read by the queries) -/

/-- Row of the `Device` table, restricted to the columns the script reads. -/
structure DeviceRow where
  deviceID : Nat
  name : String
  deviceClassInfoID : Nat
  serialNumber : Nat
  containerObjectID : Nat
  containerObjectTypeID : Nat
  firmwareRevision : String
deriving DecidableEq

/-- Row of the `Area` table. -/
structure AreaRow where
  areaID : Nat
  name : String
deriving DecidableEq

/-- Row of the `WifiSettings` table. -/
structure WifiRow where
  ssid : String
deriving DecidableEq

/-- Row of the `DeviceClassInfo` catalog table. -/
structure ClassInfoRow where
  deviceClassInfoID : Nat
  modelNumber : String
  shortDescription : String
deriving DecidableEq

/-- Row of the `Button` table. -/
structure ButtonRow where
  deviceID : Nat
  programmingModelID : Nat
deriving DecidableEq

/-- Row of the `ProgrammingModel` table. -/
structure ProgrammingModelRow where
  programmingModelID : Nat
deriving DecidableEq

/-- Row of the `Preset` table. -/
structure PresetRow where
  presetID : Nat
  programmingModelID : Nat
deriving DecidableEq

/-- Row of the `PresetAssignment` table. -/
structure PresetAssignmentRow where
  presetID : Nat
  assignableObjectID : Nat
  assignableObjectTypeID : Nat
deriving DecidableEq

/-- Row of the `Zone` table. -/
structure ZoneRow where
  zoneID : Nat
  associatedSwitchLegControllerID : Nat
deriving DecidableEq

/-- Row of the `SwitchLegController` table. -/
structure SwitchLegControllerRow where
  switchLegControllerID : Nat
  deviceID : Nat
deriving DecidableEq

/-- Row of the `OccupancySensorConnection` table. -/
structure OccupancySensorConnectionRow where
  deviceID : Nat
  occupancySensorID : Nat
deriving DecidableEq

/-- Row of the `OccupancySensor` table. -/
structure OccupancySensorRow where
  occupancySensorID : Nat
deriving DecidableEq

/-- Row of the `OccupancySensorAssociation` table. -/
structure OccupancySensorAssociationRow where
  occupancySensorID : Nat
  switchLegControllerID : Nat
deriving DecidableEq

/-- Row of the `DaylightSensorConnection` table. -/
structure DaylightSensorConnectionRow where
  deviceID : Nat
  daylightSensorID : Nat
deriving DecidableEq

/-- Row of the `DaylightGainGroup` table. -/
structure DaylightGainGroupRow where
  daylightGainGroupID : Nat
  daylightSensorID : Nat
deriving DecidableEq

/-- Row of the `DaylightGainGroupAssociation` table. -/
structure DaylightGainGroupAssociationRow where
  daylightGainGroupID : Nat
  switchLegControllerID : Nat
deriving DecidableEq

/-- The sqlite database, as the fixed query sequence of `dumpproject` sees it. -/
structure Database where
  device : List DeviceRow := []
  wifiSettings : List WifiRow := []
  area : List AreaRow := []
  deviceClassInfo : List ClassInfoRow := []
  button : List ButtonRow := []
  programmingModel : List ProgrammingModelRow := []
  preset : List PresetRow := []
  presetAssignment : List PresetAssignmentRow := []
  zone : List ZoneRow := []
  switchLegController : List SwitchLegControllerRow := []
  occupancySensorConnection : List OccupancySensorConnectionRow := []
  occupancySensor : List OccupancySensorRow := []
  occupancySensorAssociation : List OccupancySensorAssociationRow := []
  daylightSensorConnection : List DaylightSensorConnectionRow := []
  daylightGainGroup : List DaylightGainGroupRow := []
  daylightGainGroupAssociation : List DaylightGainGroupAssociationRow := []

/-! ### Python `"%08X" % n` formatting (parse.py renders serial numbers with it) -/

/-- Uppercase hexadecimal digit characters, as Python `%X` produces them. -/
def hexDigitChar : Nat → Char
  | 0 => '0'
  | 1 => '1'
  | 2 => '2'
  | 3 => '3'
  | 4 => '4'
  | 5 => '5'
  | 6 => '6'
  | 7 => '7'
  | 8 => '8'
  | 9 => '9'
  | 10 => 'A'
  | 11 => 'B'
  | 12 => 'C'
  | 13 => 'D'
  | 14 => 'E'
  | 15 => 'F'
  | _ => '?'

/-- Uppercase hexadecimal digit sequence of `n` (most significant first),
Python `"%X" % n` for a non-negative `n`. -/
def hexChars (n : Nat) : List Char :=
  if h : n < 16 then [hexDigitChar n]
  else hexChars (n / 16) ++ [hexDigitChar (n % 16)]
decreasing_by exact Nat.div_lt_self (by omega) (by omega)

/-- Python `"%08X" % n` for a non-negative `n`: uppercase hex, left-padded
with `'0'` to at least 8 characters. -/
def pyFormat08X (n : Nat) : String :=
  String.mk (List.replicate (8 - (hexChars n).length) '0' ++ hexChars n)

/-- Numeric value of an uppercase hexadecimal digit character. -/
def hexCharVal : Char → Nat
  | '1' => 1
  | '2' => 2
  | '3' => 3
  | '4' => 4
  | '5' => 5
  | '6' => 6
  | '7' => 7
  | '8' => 8
  | '9' => 9
  | 'A' => 10
  | 'B' => 11
  | 'C' => 12
  | 'D' => 13
  | 'E' => 14
  | 'F' => 15
  | _ => 0

/-- Reading a hex-digit string back as a number (big-endian). -/
def hexStringVal (s : String) : Nat :=
  s.data.foldl (fun a c => 16 * a + hexCharVal c) 0

/-- The sixteen characters Python `%X` can emit. -/
def upperHexDigits : List Char :=
  ['0', '1', '2', '3', '4', '5', '6', '7', '8', '9', 'A', 'B', 'C', 'D', 'E', 'F']

/-! ### Python `str.lstrip("0")` (firmware-revision display, parse.py line 331) -/

/-- Python `s.lstrip("0")`: drop the maximal leading run of `'0'` characters. -/
def lstripZeros (s : String) : String :=
  String.mk (s.data.dropWhile (fun c => c == '0'))

/-! ### Basic lemmas about the hex rendering -/

theorem hexCharVal_hexDigitChar {m : Nat} (h : m < 16) :
    hexCharVal (hexDigitChar m) = m := by
  interval_cases m <;> rfl

theorem hexDigitChar_mem_upperHexDigits {m : Nat} (h : m < 16) :
    hexDigitChar m ∈ upperHexDigits := by
  interval_cases m <;> decide

theorem hexChars_mem {n : Nat} {c : Char} (h : c ∈ hexChars n) :
    c ∈ upperHexDigits := by
  induction n using Nat.strong_induction_on with
  | _ n ih =>
    rw [hexChars] at h
    by_cases hn : n < 16
    · simp only [hn, dif_pos] at h
      simp only [List.mem_singleton] at h
      subst h
      exact hexDigitChar_mem_upperHexDigits hn
    · simp only [hn, dif_neg, not_false_iff, List.mem_append, List.mem_singleton] at h
      rcases h with h | h
      · exact ih (n / 16) (Nat.div_lt_self (by omega) (by omega)) h
      · subst h
        exact hexDigitChar_mem_upperHexDigits (Nat.mod_lt _ (by omega))

theorem length_hexChars_le {n k : Nat} (hk : 1 ≤ k) (h : n < 16 ^ k) :
    (hexChars n).length ≤ k := by
  induction n using Nat.strong_induction_on generalizing k with
  | _ n ih =>
    rw [hexChars]
    by_cases hn : n < 16
    · simp [hn]; omega
    · simp only [hn, dif_neg, not_false_iff, List.length_append, List.length_singleton]
      have hk2 : 2 ≤ k := by
        by_contra hlt
        have : k = 1 := by omega
        subst this
        simp [pow_one] at h
        omega
      have hdiv : n / 16 < 16 ^ (k - 1) := by
        have h16 : 16 ^ k = 16 ^ (k - 1) * 16 := by
          conv_lhs => rw [show k = (k - 1) + 1 by omega]
          rw [pow_succ]
        apply Nat.div_lt_of_lt_mul
        omega
      have := ih (n / 16) (Nat.div_lt_self (by omega) (by omega)) (by omega) hdiv
      omega

theorem foldl_hex_shift (l : List Char) (a : Nat) :
    l.foldl (fun a c => 16 * a + hexCharVal c) a
      = a * 16 ^ l.length + l.foldl (fun a c => 16 * a + hexCharVal c) 0 := by
  induction l generalizing a with
  | nil => simp
  | cons c t ih =>
    simp only [List.foldl_cons, List.length_cons]
    rw [ih (16 * a + hexCharVal c), ih (16 * 0 + hexCharVal c)]
    ring

theorem foldl_hexChars (n : Nat) :
    (hexChars n).foldl (fun a c => 16 * a + hexCharVal c) 0 = n := by
  induction n using Nat.strong_induction_on with
  | _ n ih =>
    rw [hexChars]
    by_cases hn : n < 16
    · simp [hn, hexCharVal_hexDigitChar hn]
    · simp only [hn, dif_neg, not_false_iff, List.foldl_append, List.foldl_cons,
        List.foldl_nil]
      rw [ih (n / 16) (Nat.div_lt_self (by omega) (by omega))]
      rw [hexCharVal_hexDigitChar (Nat.mod_lt _ (by omega))]
      omega

theorem foldl_replicate_zero (k : Nat) :
    (List.replicate k '0').foldl (fun a c => 16 * a + hexCharVal c) 0 = 0 := by
  induction k with
  | zero => rfl
  | succ k ih => simpa [List.replicate_succ] using ih

theorem hexStringVal_pyFormat08X (n : Nat) : hexStringVal (pyFormat08X n) = n := by
  unfold hexStringVal pyFormat08X
  show (List.replicate (8 - (hexChars n).length) '0' ++ hexChars n).foldl _ 0 = n
  rw [List.foldl_append, foldl_replicate_zero]
  exact foldl_hexChars n

theorem length_hexChars_pos (n : Nat) : 1 ≤ (hexChars n).length := by
  rw [hexChars]
  by_cases hn : n < 16 <;> simp [hn]

theorem length_pyFormat08X {n : Nat} (h : n < 2 ^ 32) :
    (pyFormat08X n).length = 8 := by
  have h16 : n < 16 ^ 8 := by norm_num at h ⊢; omega
  have hle := length_hexChars_le (by omega) h16
  show (List.replicate (8 - (hexChars n).length) '0' ++ hexChars n).length = 8
  simp [List.length_append, List.length_replicate]
  omega

theorem mem_pyFormat08X {n : Nat} {c : Char} (h : c ∈ (pyFormat08X n).data) :
    c ∈ upperHexDigits := by
  have h' : c ∈ List.replicate (8 - (hexChars n).length) '0' ++ hexChars n := h
  rcases List.mem_append.mp h' with h0 | hh
  · have := List.eq_of_mem_replicate h0
    subst this
    decide
  · exact hexChars_mem hh

/-! ### Fixed output text of `dumpproject` (parse.py lines 85-163)

The big JS/CSS block is the single string printed at lines 85-139; brace
characters are written with `\x7b` / `\x7d` escapes. -/

def boilerplate : String :=
  "\n\t\t\t<!-- JS -->\n"
    ++ "\t\t\t<script src=\"https://ajax.googleapis.com/ajax/libs/jquery/3.1.1/jquery.min.js\"></script>\n"
    ++ "\t\t\t<script type=\"text/javascript\">\n"
    ++ "\t\t\t\t  $(document).ready(function($) \x7b\n"
    ++ "\t\t\t\t\t$('#showall').click(function()\x7b\n"
    ++ "\t\t\t\t\t  //Expand all areas\n"
    ++ "\t\t\t\t\t  $('.devices').show('fast');\n"
    ++ "\t\t\t\t\t\x7d);\n"
    ++ "\t\t\t\t\t\n"
    ++ "\t\t\t\t\t$('#hideall').click(function()\x7b\n"
    ++ "\t\t\t\t\t  //Collapse all areas\n"
    ++ "\t\t\t\t\t  $('.devices').hide('fast');\n"
    ++ "\t\t\t\t\t\x7d);\n"
    ++ "\t\t\t\t\t\n"
    ++ "\t\t\t\t\t$('.area').click(function(e)\x7b\n"
    ++ "\t\t\t\t\t  //Expand or collapse all assigned_dev\n"
    ++ "\t\t\t\t\t  if (e.target !== this)\n"
    ++ "\t\t\t\t\t\t\treturn;\n"
    ++ "\t\t\t\t\t  $(this).children().toggle('fast');\n"
    ++ "\n"
    ++ "\t\t\t\t\t\x7d);\n"
    ++ "\t\t\t\t\t\n"
    ++ "\t\t\t\t\t$('.control_device').click(function(e)\x7b\n"
    ++ "\t\t\t\t\t  //Expand or collapse all assigned_dev\n"
    ++ "\t\t\t\t\t  if (e.target !== this)\n"
    ++ "\t\t\t\t\t\t\treturn;\n"
    ++ "\t\t\t\t\t  $(this).next().toggle('fast');\n"
    ++ "\n"
    ++ "\t\t\t\t\t\x7d);\n"
    ++ "\t\t\t\t\t\n"
    ++ "\t\t\t\t\t\n"
    ++ "\t\t\t\t  \x7d);\n"
    ++ "\t\t\t</script>\n"
    ++ "\n"
    ++ "\t\t\t\n"
    ++ "\t\t\t<!-- CSS -->\n"
    ++ "\t\t\t<style type='text/css'>\n"
    ++ "\t\t\n"
    ++ "\t\t\t\t\n"
    ++ "\t\n"
    ++ "\t\t\t\t.area \x7bcolor: blue; font-size: large\x7d\n"
    ++ "\t\t\t\t.area \x7bcursor: pointer;\x7d\n"
    ++ "\t\t\t\t\n"
    ++ "\t\t\t\t.control_device \x7bcolor: black; cursor: pointer;\x7d\n"
    ++ "\t\t\t\t\n"
    ++ "\t\t\t\t.assigned_devices \x7bcolor: purple; font-style: italic; cursor: text;\x7d\n"
    ++ "\t\t\t\t\n"
    ++ "\t\t\t\t.load_controller \x7bcolor: green; cursor: text;\x7d\n"
    ++ "\t\t\n"
    ++ "\t\t\t\t#hub_info \x7bfont-weight: bold; font-size: large;\x7d\n"
    ++ "\t\t\t</style>\n"
    ++ "\n"
    ++ "\t\t\t\n"
    ++ "\t\t  "

/-- parse.py line 140. -/
def printButtonLine : String := "<input type='button' value='Print' onClick='window.print()'>"

/-- parse.py line 141: open the hub info div. -/
def hubInfoOpenLine : String := "<div id='hub_info'>"

/-- parse.py line 159: the notes textarea printed after each wifi name. -/
def textareaLine : String :=
  "<br /><textarea rows='4' cols='30' placeholder='Enter notes here, e.g. The WiFi Password is Lutron123!'></textarea><br />"

/-- parse.py line 162. -/
def expandCollapseLine : String :=
  "<a href ='#' id ='showall' title='Expand All Areas'>&#8650;</a> | <a href ='#' id ='hideall' title='Collapse All Areas'>&#8649;</a>"

/-- parse.py line 163: close the hub info div, open the areas div. -/
def closeHubOpenAreasLine : String := "</div><br /><div id='areas'>"

/-! ### Queries of `dumpproject` -/

/-- parse.py line 145: `SELECT Name, SerialNumber FROM Device WHERE DeviceID="1"`
(sqlite coerces the text literal to the integer key). -/
def hubQuery (db : Database) : List (String × Nat) :=
  (db.device.filter (fun d => d.deviceID == 1)).map (fun d => (d.name, d.serialNumber))

/-- parse.py lines 147-151: the hub loop body output. -/
def hubLines (db : Database) : List String :=
  (hubQuery db).flatMap (fun h => ["Hub Serial: " ++ pyFormat08X h.2, "<br />"])

/-- parse.py lines 154-159: `SELECT Ssid FROM WifiSettings` and the wifi loop output. -/
def wifiLines (db : Database) : List String :=
  db.wifiSettings.flatMap (fun w => ["Wifi Name: " ++ w.ssid, textareaLine])

/-- Everything `dumpproject` prints before the area loop (parse.py lines 85-163). -/
def headerLines (db : Database) : List String :=
  [boilerplate, printButtonLine, hubInfoOpenLine] ++ hubLines db ++ wifiLines db
    ++ [expandCollapseLine, closeHubOpenAreasLine]

/-- parse.py line 169: `SELECT AreaID, Name FROM Area WHERE Name != "root"`. -/
def nonRootAreas (db : Database) : List AreaRow :=
  db.area.filter (fun a => a.name != "root")

/-- Result row of the per-area device query (parse.py lines 179-188), with the
python variable names of lines 222-228: `designerTag` is the
`DeviceClassInfo.ModelNumber` column, `shortDescr` the fetched-but-unused
`DeviceClassInfo.ShortDescription`. -/
structure AreaDeviceRow where
  deviceID : Nat
  name : String
  deviceClassInfoID : Nat
  serialNumber : Nat
  designerTag : String
  shortDescr : String
  fwRev : String
deriving DecidableEq

/-- parse.py lines 179-188: devices of one area joined to their class info,
filtered by `ContainerObjectID = areaID AND ContainerObjectTypeID = 2`. -/
def areaDeviceQuery (db : Database) (areaID : Nat) : List AreaDeviceRow :=
  (db.device.filter
      (fun d => d.containerObjectID == areaID && d.containerObjectTypeID == 2)).flatMap
    (fun d =>
      (db.deviceClassInfo.filter
          (fun ci => d.deviceClassInfoID == ci.deviceClassInfoID)).map
        (fun ci =>
          ⟨d.deviceID, d.name, d.deviceClassInfoID, d.serialNumber,
            ci.modelNumber, ci.shortDescription, d.firmwareRevision⟩))

/-- parse.py lines 196-207. -/
def picoDeviceClassInfoIds : List Nat := [12, 21, 22, 23, 24, 25, 32, 33, 34, 35]

/-- parse.py lines 210-212. -/
def occSensorDeviceClassInfoIds : List Nat := [11]

/-- parse.py lines 215-217. -/
def daylightSensorDeviceClassInfoIds : List Nat := [46]

/-- Result row of the three programmed-devices queries:
`SELECT DISTINCT Device.Name, Device.SerialNumber, DeviceClassInfo.ModelNumber,
DeviceClassInfo.ShortDescription`. -/
structure ProgRow where
  name : String
  serialNumber : Nat
  modelNumber : String
  shortDescription : String
deriving DecidableEq

/-- parse.py lines 232-245: the Pico programming query
(`Button` → `ProgrammingModel` → `Preset` → `PresetAssignment` → `Zone`
(`AssignableObjectTypeID = 15`) → `SwitchLegController` → `Device` →
`DeviceClassInfo`, `WHERE Button.DeviceID = ?`, `DISTINCT` = `dedup`). -/
def picoProgrammedDevices (db : Database) (devId : Nat) : List ProgRow :=
  ((db.button.filter (fun b => b.deviceID == devId)).flatMap fun b =>
    (db.programmingModel.filter
        (fun pm => pm.programmingModelID == b.programmingModelID)).flatMap fun _pm =>
    (db.preset.filter
        (fun p => p.programmingModelID == b.programmingModelID)).flatMap fun p =>
    (db.presetAssignment.filter (fun pa => pa.presetID == p.presetID)).flatMap fun pa =>
    (db.zone.filter
        (fun z => pa.assignableObjectID == z.zoneID
          && pa.assignableObjectTypeID == 15)).flatMap fun z =>
    (db.switchLegController.filter
        (fun s => z.associatedSwitchLegControllerID == s.switchLegControllerID)).flatMap
      fun slc =>
    (db.device.filter (fun dev => dev.deviceID == slc.deviceID)).flatMap fun dev =>
    (db.deviceClassInfo.filter
        (fun ci => dev.deviceClassInfoID == ci.deviceClassInfoID)).map fun ci =>
      (⟨dev.name, dev.serialNumber, ci.modelNumber, ci.shortDescription⟩ : ProgRow)).dedup

/-- parse.py lines 266-277: the occupancy-sensor programming query
(`OccupancySensorConnection` → `OccupancySensor` → `OccupancySensorAssociation`
→ `SwitchLegController` → `Device` → `DeviceClassInfo`). -/
def occProgrammedDevices (db : Database) (devId : Nat) : List ProgRow :=
  ((db.occupancySensorConnection.filter (fun oc => oc.deviceID == devId)).flatMap fun oc =>
    (db.occupancySensor.filter
        (fun os => os.occupancySensorID == oc.occupancySensorID)).flatMap fun _os =>
    (db.occupancySensorAssociation.filter
        (fun oa => oa.occupancySensorID == oc.occupancySensorID)).flatMap fun oa =>
    (db.switchLegController.filter
        (fun s => oa.switchLegControllerID == s.switchLegControllerID)).flatMap fun slc =>
    (db.device.filter (fun dev => dev.deviceID == slc.deviceID)).flatMap fun dev =>
    (db.deviceClassInfo.filter
        (fun ci => dev.deviceClassInfoID == ci.deviceClassInfoID)).map fun ci =>
      (⟨dev.name, dev.serialNumber, ci.modelNumber, ci.shortDescription⟩ : ProgRow)).dedup

/-- parse.py lines 299-310: the daylight-sensor programming query
(`DaylightSensorConnection` → `DaylightGainGroup` → `DaylightGainGroupAssociation`
→ `SwitchLegController` → `Device` → `DeviceClassInfo`). -/
def daylightProgrammedDevices (db : Database) (devId : Nat) : List ProgRow :=
  ((db.daylightSensorConnection.filter (fun dc => dc.deviceID == devId)).flatMap fun dc =>
    (db.daylightGainGroup.filter
        (fun gg => gg.daylightSensorID == dc.daylightSensorID)).flatMap fun gg =>
    (db.daylightGainGroupAssociation.filter
        (fun ga => ga.daylightGainGroupID == gg.daylightGainGroupID)).flatMap fun ga =>
    (db.switchLegController.filter
        (fun s => ga.switchLegControllerID == s.switchLegControllerID)).flatMap fun slc =>
    (db.device.filter (fun dev => dev.deviceID == slc.deviceID)).flatMap fun dev =>
    (db.deviceClassInfo.filter
        (fun ci => dev.deviceClassInfoID == ci.deviceClassInfoID)).map fun ci =>
      (⟨dev.name, dev.serialNumber, ci.modelNumber, ci.shortDescription⟩ : ProgRow)).dedup

/-! ### Per-device output (parse.py lines 220-332) -/

/-- parse.py lines 247, 279, 312: `"<div id='0x%08X' class= 'control_device'>"`. -/
def controlDivOpenLine (serial : Nat) : String :=
  "<div id='0x" ++ pyFormat08X serial ++ "' class= 'control_device'>"

/-- parse.py lines 248-249, 280-281, 313-314: the control-device heading; the
designer-tag slot is filled with `designerTag` (the `ModelNumber` column). -/
def controlHeadingLine (kind : String) (d : AreaDeviceRow) (count : Nat) : String :=
  "    " ++ d.designerTag ++ ": " ++ d.name ++ " (SN: " ++ pyFormat08X d.serialNumber
    ++ ") (This " ++ kind ++ " controls " ++ toString count ++ " devices)"

/-- parse.py lines 250, 282, 315. -/
def assignedOpenLine (serial : Nat) : String :=
  "</div><div id ='0x" ++ pyFormat08X serial
    ++ "_assigned_devices' class='assigned_devices'><ul>"

/-- parse.py lines 260-262, 292-294, 325-327: one nested controlled-device item;
its designer-tag slot shows `modelNumber`, and `shortDescription` is unused. -/
def progItemLines (r : ProgRow) : List String :=
  ["<li>",
   "        " ++ r.modelNumber ++ ": " ++ r.name ++ " (SN: "
     ++ pyFormat08X r.serialNumber ++ ")",
   "</li>"]

/-- The full fragment a control device emits (heading plus nested list). -/
def controlSection (kind : String) (d : AreaDeviceRow) (rows : List ProgRow) :
    List String :=
  [controlDivOpenLine d.serialNumber, controlHeadingLine kind d rows.length,
    assignedOpenLine d.serialNumber]
    ++ rows.flatMap progItemLines ++ ["</ul></div>"]

/-- parse.py lines 330-332: the default (load-controller) fragment. -/
def loadControllerLines (d : AreaDeviceRow) : List String :=
  ["<div id='0x" ++ pyFormat08X d.serialNumber ++ "' class='load_controller'>",
   "    " ++ d.designerTag ++ ": " ++ d.name ++ " (SN: "
     ++ pyFormat08X d.serialNumber ++ ") (v" ++ lstripZeros d.fwRev ++ ")",
   "</div>"]

/-- A programming-association query execution, recorded by `processDevice`. -/
inductive ProgQuery where
  | pico (deviceID : Nat)
  | occ (deviceID : Nat)
  | daylight (deviceID : Nat)
deriving DecidableEq

/-- parse.py lines 220-332: the body of the per-device loop. Returns the lines
printed for the device and the programming-association queries executed. -/
def processDevice (db : Database) (d : AreaDeviceRow) :
    List String × List ProgQuery :=
  if d.deviceClassInfoID ∈ picoDeviceClassInfoIds then
    (controlSection "Pico" d (picoProgrammedDevices db d.deviceID),
      [ProgQuery.pico d.deviceID])
  else if d.deviceClassInfoID ∈ occSensorDeviceClassInfoIds then
    (controlSection "Occupancy Sensor" d (occProgrammedDevices db d.deviceID),
      [ProgQuery.occ d.deviceID])
  else if d.deviceClassInfoID ∈ daylightSensorDeviceClassInfoIds then
    (controlSection "Daylight Sensor" d (daylightProgrammedDevices db d.deviceID),
      [ProgQuery.daylight d.deviceID])
  else
    (loadControllerLines d, [])

/-! ### The area loop and `dumpproject` as a whole -/

/-- The uncaught Python exception class the run can die with. -/
inductive PyErr where
  | typeError
deriving DecidableEq

/-- parse.py line 191: the string literal printed there. The source is
`print("<div id= '%s' class= 'area'>")%(area_name)`: the `%` operator is
applied to the return value of `print` (which is `None`), so the literal is
printed unformatted and then `None % area_name` raises a `TypeError`. -/
def areaOpenLiteral : String := "<div id= '%s' class= 'area'>"

/-- parse.py lines 173-334: the area loop. The device query of lines 179-188
runs and prints nothing; then line 191 prints `areaOpenLiteral` and raises
`TypeError` (see `areaOpenLiteral`), so the first iteration aborts the loop and
lines 192-334 are unreachable (their device-level body is embedded separately
as `processDevice`). -/
def emitAreas (db : Database) : List AreaRow → List String × Option PyErr
  | [] => ([], none)
  | a :: _rest =>
    let _devs := areaDeviceQuery db a.areaID
    ([areaOpenLiteral], some PyErr.typeError)

/-- parse.py lines 79-336: the whole report stage. Output is the list of
printed lines; the second component is the uncaught exception, if any. -/
def dumpproject (db : Database) : List String × Option PyErr :=
  let rest := emitAreas db (nonRootAreas db)
  (headerLines db ++ rest.1, rest.2)

/-! ### The support-file branch of `main` (parse.py lines 49-66) -/

/-- parse.py line 52: the fixed internal path of the embedded database. -/
def supportDbEntryName : String := "./supportfile/lutron-db.sqlite"

/-- How a run of the support-file branch ends. `usageError` is
`parser.error` (message on stderr, exit status 2); `uncaught` is an unhandled
exception propagating out of `dumpproject` (non-zero exit). -/
inductive RunStatus where
  | completed
  | usageError (msg : String)
  | uncaught (e : PyErr)
deriving DecidableEq

/-- Observable outcome of the support-file branch: the report written to
stdout, how the process ended, and whether the extracted temporary file still
exists afterwards. -/
structure SupportResult where
  output : List String
  status : RunStatus
  tempLeft : Bool
deriving DecidableEq

/-- parse.py lines 49-66: `entries` are the member names of the tar archive,
`db` the parsed content of the matching embedded database entry. With exactly
one match the database is extracted to a temporary file and `dumpproject`
runs; `os.remove(temp.name)` (line 64) executes only if `dumpproject` returned
normally — there is no `try`/`finally`, so an exception leaves the temporary
file behind. Otherwise `parser.error` aborts with a message naming the
archive, before any report output. -/
def mainSupportFile (path : String) (entries : List String) (db : Database) :
    SupportResult :=
  let info := entries.filter (fun n => n == supportDbEntryName)
  if info.length = 1 then
    let r := dumpproject db
    match r.2 with
    | none => { output := r.1, status := RunStatus.completed, tempLeft := false }
    | some e => { output := r.1, status := RunStatus.uncaught e, tempLeft := true }
  else
    { output := [],
      status := RunStatus.usageError
        ("Invalid support file (couldn't find database) - " ++ path),
      tempLeft := false }

/-! ### Substring counting (for the tag-balance claim) -/

/-- `beginsWith pat l`: `pat` is a prefix of `l`. -/
def beginsWith : List Char → List Char → Bool
  | [], _ => true
  | _ :: _, [] => false
  | p :: ps, c :: cs => p == c && beginsWith ps cs

/-- Number of suffixes of `l` that start with `pat` (= occurrence count of a
nonempty pattern). -/
def countPref (pat : List Char) : List Char → Nat
  | [] => 0
  | c :: t => (if beginsWith pat (c :: t) then 1 else 0) + countPref pat t

/-- Total occurrence count of `pat` over a list of output lines. Tags never
span two printed lines (each `print` ends with a newline), so per-line counting
matches counting over the real output stream. -/
def tagCount (pat : String) (lines : List String) : Nat :=
  (lines.map (fun s => countPref pat.data s.data)).sum

/-! ### Concrete databases used as witnesses and counterexamples -/

/-- A database with empty tables. -/
def emptyDb : Database := {}

/-- A database with one real area ("Kitchen") holding one dimmer. -/
def kitchenDb : Database :=
  { area := [⟨2, "Kitchen"⟩],
    device := [⟨7, "Main Light", 5, 43, 2, 2, "002.1"⟩],
    deviceClassInfo := [⟨5, "PD-6WCL", "Dimmer"⟩] }

/-- A database with a hub row, one wifi row and only the root area. -/
def wifiDb : Database :=
  { device := [⟨1, "Hub", 3, 42, 0, 0, "001"⟩],
    wifiSettings := [⟨"HomeNet"⟩],
    area := [⟨1, "root"⟩] }

/-- A database in which a Pico is programmed to two different load devices
that share the same name and serial number but have different class-info rows
(distinct `ModelNumber`s): the `SELECT DISTINCT` keeps both result tuples. -/
def dupDb : Database :=
  { device :=
      [⟨100, "Pico A", 21, 77, 2, 2, "001"⟩,
       ⟨200, "Lamp", 70, 5, 2, 2, "001"⟩,
       ⟨201, "Lamp", 71, 5, 2, 2, "001"⟩],
    deviceClassInfo :=
      [⟨21, "PJ2-2B", "Pico 2-Button"⟩, ⟨70, "M1", "desc"⟩, ⟨71, "M2", "desc"⟩],
    button := [⟨100, 1⟩],
    programmingModel := [⟨1⟩],
    preset := [⟨1, 1⟩],
    presetAssignment := [⟨1, 1, 15⟩, ⟨1, 2, 15⟩],
    zone := [⟨1, 1⟩, ⟨2, 2⟩],
    switchLegController := [⟨1, 200⟩, ⟨2, 201⟩] }

/-- The device row of the Pico of `dupDb` as the area device query yields it. -/
def dupPicoRow : AreaDeviceRow :=
  ⟨100, "Pico A", 21, 77, "PJ2-2B", "Pico 2-Button", "001"⟩

/-- The device row of the dimmer of `kitchenDb` as the area query yields it. -/
def kitchenLoadRow : AreaDeviceRow :=
  ⟨7, "Main Light", 5, 43, "PD-6WCL", "Dimmer", "002.1"⟩

/-! ### Helper lemmas -/

theorem string_data_append (s t : String) : (s ++ t).data = s.data ++ t.data := rfl

theorem head_dropWhile_false {α} (p : α → Bool) :
    ∀ (l : List α) (c : α), (l.dropWhile p).head? = some c → p c = false := by
  intro l
  induction l with
  | nil => intro c h; simp [List.dropWhile] at h
  | cons a t ih =>
    intro c h
    by_cases ha : p a = true
    · rw [List.dropWhile_cons_of_pos ha] at h
      exact ih c h
    · rw [List.dropWhile_cons_of_neg ha] at h
      simp only [List.head?_cons, Option.some.injEq] at h
      subst h
      simpa using ha

theorem dropWhile_idem {α} (p : α → Bool) (l : List α) :
    (l.dropWhile p).dropWhile p = l.dropWhile p := by
  rcases h : l.dropWhile p with _ | ⟨c, t⟩
  · rfl
  · have hc : p c = false := head_dropWhile_false p l c (by rw [h]; rfl)
    rw [List.dropWhile_cons_of_neg (by simp [hc])]

theorem countPref_eq_zero {pat : List Char} {c : Char} {l : List Char}
    (hpat : pat.head? = some c) (hc : c ∉ l) : countPref pat l = 0 := by
  rcases pat with _ | ⟨p, ps⟩
  · simp at hpat
  · simp only [List.head?_cons, Option.some.injEq] at hpat
    have hcp : p ∉ l := hpat ▸ hc
    clear hc hpat
    induction l with
    | nil => rfl
    | cons a t ih =>
      have hne : p ≠ a := fun h => hcp (h ▸ List.mem_cons_self a t)
      have hnt : p ∉ t := fun h => hcp (List.mem_cons_of_mem a h)
      show (if beginsWith (p :: ps) (a :: t) then 1 else 0) + countPref (p :: ps) t = 0
      rw [ih hnt]
      have hb : beginsWith (p :: ps) (a :: t) = false := by
        show (p == a && beginsWith ps t) = false
        simp [hne]
      simp [hb]

theorem tagCount_cons (pat s : String) (l : List String) :
    tagCount pat (s :: l) = countPref pat.data s.data + tagCount pat l := by
  simp [tagCount]

theorem tagCount_append (pat : String) (l₁ l₂ : List String) :
    tagCount pat (l₁ ++ l₂) = tagCount pat l₁ + tagCount pat l₂ := by
  simp [tagCount]

theorem tagCount_flatMap_zero {α} {pat : String} {f : α → List String}
    {l : List α} (h : ∀ x ∈ l, tagCount pat (f x) = 0) :
    tagCount pat (l.flatMap f) = 0 := by
  induction l with
  | nil => rfl
  | cons a t ih =>
    rw [List.flatMap_cons, tagCount_append, h a (List.mem_cons_self a t),
      ih (fun x hx => h x (List.mem_cons_of_mem a hx))]

theorem not_lt_mem_pyFormat08X {n : Nat} : '<' ∉ (pyFormat08X n).data := by
  intro h
  exact absurd (mem_pyFormat08X h) (by decide)

theorem tagCount_hubLines {pat : String} (db : Database)
    (hpat : pat.data.head? = some '<')
    (hbr : countPref pat.data "<br />".data = 0) :
    tagCount pat (hubLines db) = 0 := by
  unfold hubLines
  apply tagCount_flatMap_zero
  intro p _
  rw [tagCount_cons, tagCount_cons, hbr]
  rw [countPref_eq_zero hpat ?_]
  · rfl
  · rw [string_data_append]
    intro hmem
    rcases List.mem_append.1 hmem with h | h
    · revert h; decide
    · exact not_lt_mem_pyFormat08X h

theorem tagCount_wifiLines {pat : String} (db : Database)
    (hpat : pat.data.head? = some '<')
    (hta : countPref pat.data textareaLine.data = 0)
    (hssid : ∀ w ∈ db.wifiSettings, '<' ∉ w.ssid.data) :
    tagCount pat (wifiLines db) = 0 := by
  unfold wifiLines
  apply tagCount_flatMap_zero
  intro w hw
  rw [tagCount_cons, tagCount_cons, hta]
  rw [countPref_eq_zero hpat ?_]
  · rfl
  · rw [string_data_append]
    intro hmem
    rcases List.mem_append.1 hmem with h | h
    · revert h; decide
    · exact hssid w hw h

theorem tagCount_headerLines (pat : String) (db : Database)
    (hpat : pat.data.head? = some '<')
    (hbr : countPref pat.data "<br />".data = 0)
    (hta : countPref pat.data textareaLine.data = 0)
    (hssid : ∀ w ∈ db.wifiSettings, '<' ∉ w.ssid.data) :
    tagCount pat (headerLines db)
      = tagCount pat [boilerplate, printButtonLine, hubInfoOpenLine]
        + tagCount pat [expandCollapseLine, closeHubOpenAreasLine] := by
  unfold headerLines
  rw [tagCount_append, tagCount_append, tagCount_append,
    tagCount_hubLines db hpat hbr, tagCount_wifiLines db hpat hta hssid]
  omega

theorem nonRootAreas_eq_nil {db : Database}
    (h : ∀ a ∈ db.area, a.name = "root") : nonRootAreas db = [] := by
  unfold nonRootAreas
  rw [List.filter_eq_nil_iff]
  intro a ha
  simp [h a ha]

theorem dumpproject_of_no_nonroot {db : Database}
    (h : ∀ a ∈ db.area, a.name = "root") :
    dumpproject db = (headerLines db, none) := by
  show (headerLines db ++ (emitAreas db (nonRootAreas db)).1,
    (emitAreas db (nonRootAreas db)).2) = (headerLines db, none)
  rw [nonRootAreas_eq_nil h]
  simp [emitAreas]

theorem mem_areaDeviceQuery {db : Database} {areaID : Nat} {d : AreaDeviceRow}
    (h : d ∈ areaDeviceQuery db areaID) :
    ∃ ci ∈ db.deviceClassInfo,
      d.deviceClassInfoID = ci.deviceClassInfoID
        ∧ d.designerTag = ci.modelNumber
        ∧ d.shortDescr = ci.shortDescription := by
  unfold areaDeviceQuery at h
  rcases List.mem_flatMap.1 h with ⟨dev, hdev, hmap⟩
  rcases List.mem_map.1 hmap with ⟨ci, hci, heq⟩
  rcases List.mem_filter.1 hci with ⟨hcimem, hcicond⟩
  refine ⟨ci, hcimem, ?_⟩
  subst heq
  refine ⟨?_, rfl, rfl⟩
  simpa using hcicond

theorem mem_picoProgrammedDevices {db : Database} {devId : Nat} {r : ProgRow}
    (h : r ∈ picoProgrammedDevices db devId) :
    ∃ dev ∈ db.device, ∃ ci ∈ db.deviceClassInfo,
      dev.deviceClassInfoID = ci.deviceClassInfoID
        ∧ r = ⟨dev.name, dev.serialNumber, ci.modelNumber, ci.shortDescription⟩ := by
  unfold picoProgrammedDevices at h
  rw [List.mem_dedup] at h
  simp only [List.mem_flatMap, List.mem_map, List.mem_filter] at h
  obtain ⟨b, _, _pm, _, p, _, pa, _, z, _, slc, _, dev, ⟨hdev, _⟩, ci,
    ⟨⟨hci, hcicond⟩, heq⟩⟩ := h
  exact ⟨dev, hdev, ci, hci, by simpa using hcicond, heq.symm⟩

theorem mem_occProgrammedDevices {db : Database} {devId : Nat} {r : ProgRow}
    (h : r ∈ occProgrammedDevices db devId) :
    ∃ dev ∈ db.device, ∃ ci ∈ db.deviceClassInfo,
      dev.deviceClassInfoID = ci.deviceClassInfoID
        ∧ r = ⟨dev.name, dev.serialNumber, ci.modelNumber, ci.shortDescription⟩ := by
  unfold occProgrammedDevices at h
  rw [List.mem_dedup] at h
  simp only [List.mem_flatMap, List.mem_map, List.mem_filter] at h
  obtain ⟨oc, _, _os, _, oa, _, slc, _, dev, ⟨hdev, _⟩, ci,
    ⟨⟨hci, hcicond⟩, heq⟩⟩ := h
  exact ⟨dev, hdev, ci, hci, by simpa using hcicond, heq.symm⟩

theorem mem_daylightProgrammedDevices {db : Database} {devId : Nat} {r : ProgRow}
    (h : r ∈ daylightProgrammedDevices db devId) :
    ∃ dev ∈ db.device, ∃ ci ∈ db.deviceClassInfo,
      dev.deviceClassInfoID = ci.deviceClassInfoID
        ∧ r = ⟨dev.name, dev.serialNumber, ci.modelNumber, ci.shortDescription⟩ := by
  unfold daylightProgrammedDevices at h
  rw [List.mem_dedup] at h
  simp only [List.mem_flatMap, List.mem_map, List.mem_filter] at h
  obtain ⟨dc, _, gg, _, ga, _, slc, _, dev, ⟨hdev, _⟩, ci,
    ⟨⟨hci, hcicond⟩, heq⟩⟩ := h
  exact ⟨dev, hdev, ci, hci, by simpa using hcicond, heq.symm⟩

/-! ### The claims -/

/-- C1: on every database whose `Area` table has a row named other than
"root", `dumpproject` prints the unformatted literal
`<div id= '%s' class= 'area'>` when it starts emitting that area's section and
dies there with an uncaught `TypeError` (parse.py line 191 applies `%` to the
return value of `print`, i.e. to `None`), so no device rows are ever emitted;
the report runs to completion exactly when every area row is named "root". -/
theorem claim_C1_typeerror_on_nonroot_areas (db : Database) :
    ((∃ a ∈ db.area, a.name ≠ "root") →
      dumpproject db
        = (headerLines db ++ [areaOpenLiteral], some PyErr.typeError))
    ∧ ((∀ a ∈ db.area, a.name = "root") →
      dumpproject db = (headerLines db, none)) := by
  constructor
  · rintro ⟨a, ha, hname⟩
    have hmem : a ∈ nonRootAreas db := by
      unfold nonRootAreas
      refine List.mem_filter.2 ⟨ha, ?_⟩
      simpa using hname
    show (headerLines db ++ (emitAreas db (nonRootAreas db)).1,
      (emitAreas db (nonRootAreas db)).2) = _
    rcases h : nonRootAreas db with _ | ⟨x, xs⟩
    · rw [h] at hmem; simp at hmem
    · rfl
  · exact dumpproject_of_no_nonroot

/-- C1 witness: `kitchenDb` has a non-root area; the run aborts right after
the unformatted area-div literal. -/
theorem claim_C1_witness :
    dumpproject kitchenDb
      = (headerLines kitchenDb ++ [areaOpenLiteral], some PyErr.typeError) :=
  (claim_C1_typeerror_on_nonroot_areas kitchenDb).1
    ⟨⟨2, "Kitchen"⟩, by decide, by decide⟩

/-- C2 counterexample: with exactly one matching archive entry and a database
holding a real area, the report stage fails (`TypeError` of parse.py line
191), `os.remove` on line 64 is never reached, and the extracted temporary
file still exists when the process exits — refuting deletion on every exit
path. -/
theorem claim_C2_counterexample :
    (mainSupportFile "s.tar.gz" [supportDbEntryName] kitchenDb).tempLeft = true
      ∧ (mainSupportFile "s.tar.gz" [supportDbEntryName] kitchenDb).status
          ≠ RunStatus.completed := by
  exact ⟨rfl, by decide⟩

/-- C2 (amended): the temporary extracted file is deleted exactly when the
report stage completes successfully; any failure raised during the report
stage leaves the temporary file behind (there is no `try`/`finally` around
`dumpproject`). -/
theorem claim_C2_temp_cleanup_amended (path : String) (entries : List String)
    (db : Database)
    (hone : (entries.filter (fun n => n == supportDbEntryName)).length = 1) :
    ((dumpproject db).2 = none →
      (mainSupportFile path entries db).tempLeft = false)
    ∧ (∀ e, (dumpproject db).2 = some e →
      (mainSupportFile path entries db).tempLeft = true) := by
  constructor
  · intro h2
    simp only [mainSupportFile, if_pos hone]
    rw [h2]
  · intro e h2
    simp only [mainSupportFile, if_pos hone]
    rw [h2]

/-- C2 witness: success on a database with no non-root areas deletes the
temporary file; the `TypeError` failure on `kitchenDb` leaves it behind. -/
theorem claim_C2_witness :
    (mainSupportFile "w.tar.gz" [supportDbEntryName] emptyDb).tempLeft = false
      ∧ (mainSupportFile "w.tar.gz" [supportDbEntryName] kitchenDb).tempLeft
          = true :=
  ⟨(claim_C2_temp_cleanup_amended "w.tar.gz" [supportDbEntryName] emptyDb
      (by decide)).1 (by rfl),
   (claim_C2_temp_cleanup_amended "w.tar.gz" [supportDbEntryName] kitchenDb
      (by decide)).2 PyErr.typeError (by rfl)⟩

/-- C3 (code-bug evidence): on a database whose `Area` table is
`[(2, "Kitchen")]` with one device in that area, `dumpproject` aborts with the
`TypeError` of parse.py line 191 right after printing the unformatted
area-div literal; the area heading with its device count (which line 192 would
have printed) never appears in the output. -/
theorem claim_C3_code_bug_eval :
    dumpproject kitchenDb
        = (headerLines kitchenDb ++ [areaOpenLiteral], some PyErr.typeError)
      ∧ "Area: Kitchen (There are 1 total devices in this Area)"
          ∉ (dumpproject kitchenDb).1 :=
  ⟨rfl, by decide⟩

/-- C4: with an archive path, a match count of the fixed internal database
entry name other than one makes the run abort via `parser.error` (non-zero
exit status) with a message naming the archive and with no report output at
all; exactly one match proceeds to generate the report from the extracted
database. -/
theorem claim_C4_archive_matching (path : String) (entries : List String)
    (db : Database) :
    ((entries.filter (fun n => n == supportDbEntryName)).length ≠ 1 →
      mainSupportFile path entries db
        = { output := [],
            status := RunStatus.usageError
              ("Invalid support file (couldn't find database) - " ++ path),
            tempLeft := false })
    ∧ ((entries.filter (fun n => n == supportDbEntryName)).length = 1 →
      (mainSupportFile path entries db).output = (dumpproject db).1) := by
  constructor
  · intro h
    simp only [mainSupportFile, if_neg h]
  · intro h
    simp only [mainSupportFile, if_pos h]
    rcases h2 : (dumpproject db).2 with _ | e <;> simp [h2]

/-- C4 witness: an archive without the entry errors out naming the archive; an
archive with exactly one entry produces the report of the extracted
database. -/
theorem claim_C4_witness :
    mainSupportFile "broken.tar.gz" [] emptyDb
        = { output := [],
            status := RunStatus.usageError
              ("Invalid support file (couldn't find database) - "
                ++ "broken.tar.gz"),
            tempLeft := false }
      ∧ (mainSupportFile "ok.tar.gz" [supportDbEntryName] emptyDb).output
          = (dumpproject emptyDb).1 :=
  ⟨(claim_C4_archive_matching "broken.tar.gz" [] emptyDb).1 (by decide),
   (claim_C4_archive_matching "ok.tar.gz" [supportDbEntryName] emptyDb).2
     (by decide)⟩

/-- C5 counterexample: in `dupDb` the Pico is a control device and its
controlled-device result set is `[("Lamp", 5, "M1", "desc"),
("Lamp", 5, "M2", "desc")]` — distinct as 4-tuples (so `SELECT DISTINCT`
keeps both) but a duplicate (serial number, name) pair, refuting the claim as
stated. -/
theorem claim_C5_counterexample :
    dupPicoRow.deviceClassInfoID ∈ picoDeviceClassInfoIds
      ∧ picoProgrammedDevices dupDb dupPicoRow.deviceID
          = [⟨"Lamp", 5, "M1", "desc"⟩, ⟨"Lamp", 5, "M2", "desc"⟩]
      ∧ ¬ ((picoProgrammedDevices dupDb dupPicoRow.deviceID).map
            (fun r => (r.serialNumber, r.name))).Nodup :=
  ⟨by decide, by decide, by decide⟩

/-- C5 (amended): for every control device the controlled-device result set
contains no duplicate (name, serial number, model number, short description)
4-tuples — the `SELECT DISTINCT` de-duplicates whole result rows (but rows
differing only in an unprinted column may still repeat a (serial, name)
pair). -/
theorem claim_C5_distinct_tuples_amended (db : Database) (devId : Nat) :
    (picoProgrammedDevices db devId).Nodup
      ∧ (occProgrammedDevices db devId).Nodup
      ∧ (daylightProgrammedDevices db devId).Nodup :=
  ⟨List.nodup_dedup _, List.nodup_dedup _, List.nodup_dedup _⟩

/-- C6: the firmware-revision display transformation removes exactly the
leading run of `'0'` characters and nothing else (the remainder starts with a
non-`'0'` character, if any), is idempotent, and maps "007.1" to "7.1", "000"
to "", and "1.0" to "1.0". -/
theorem claim_C6_firmware_strip (s : String) :
    (∃ k, s.data = List.replicate k '0' ++ (lstripZeros s).data)
    ∧ (∀ c, (lstripZeros s).data.head? = some c → c ≠ '0')
    ∧ lstripZeros (lstripZeros s) = lstripZeros s
    ∧ (lstripZeros "007.1" = "7.1" ∧ lstripZeros "000" = ""
        ∧ lstripZeros "1.0" = "1.0") := by
  refine ⟨⟨(s.data.takeWhile (fun c => c == '0')).length, ?_⟩, ?_, ?_, ?_⟩
  · conv_lhs => rw [← List.takeWhile_append_dropWhile (p := fun c => c == '0')
      (l := s.data)]
    congr 1
    rw [List.eq_replicate_length]
    intro b hb
    simpa using List.mem_takeWhile_imp hb
  · intro c hc h0
    have := head_dropWhile_false (fun c => c == '0') s.data c hc
    simp [h0] at this
  · show String.mk ((s.data.dropWhile _).dropWhile _) = _
    rw [dropWhile_idem]
    rfl
  · exact ⟨by decide, by decide, by decide⟩

/-- C6 witness: concrete evaluation at "007.1". -/
theorem claim_C6_witness :
    (∃ k, ("007.1" : String).data
        = List.replicate k '0' ++ (lstripZeros "007.1").data)
      ∧ ('7' : Char) ≠ '0' :=
  ⟨(claim_C6_firmware_strip "007.1").1,
   (claim_C6_firmware_strip "007.1").2.1 '7' (by decide)⟩

/-- C7: every hub row (`Device` row with `DeviceID` 1) whose serial number is
a non-negative 32-bit integer is rendered as a hub-serial line whose hex part
has exactly 8 characters, all uppercase hexadecimal digits, decoding back to
the stored value; with no hub row the hub section is empty and contributes no
error (the run's error is determined by the area loop alone). -/
theorem claim_C7_hub_serial (db : Database) :
    (∀ p ∈ hubQuery db, p.2 < 2 ^ 32 →
      ("Hub Serial: " ++ pyFormat08X p.2) ∈ hubLines db
        ∧ (pyFormat08X p.2).length = 8
        ∧ (∀ c ∈ (pyFormat08X p.2).data, c ∈ upperHexDigits)
        ∧ hexStringVal (pyFormat08X p.2) = p.2)
    ∧ (hubQuery db = [] →
      hubLines db = []
        ∧ headerLines db
            = [boilerplate, printButtonLine, hubInfoOpenLine] ++ wifiLines db
              ++ [expandCollapseLine, closeHubOpenAreasLine])
    ∧ (dumpproject db).2 = (emitAreas db (nonRootAreas db)).2 := by
  refine ⟨?_, ?_, rfl⟩
  · intro p hp hlt
    refine ⟨?_, length_pyFormat08X hlt, ?_, hexStringVal_pyFormat08X p.2⟩
    · exact List.mem_flatMap.2 ⟨p, hp, by simp⟩
    · intro c hc
      exact mem_pyFormat08X hc
  · intro h
    have hlines : hubLines db = [] := by
      unfold hubLines
      rw [h]
      rfl
    refine ⟨hlines, ?_⟩
    unfold headerLines
    rw [hlines]
    simp

/-- C7 witness: the hub of `wifiDb` (serial 42) renders as 8 uppercase hex
digits decoding back to 42. -/
theorem claim_C7_witness :
    ("Hub Serial: " ++ pyFormat08X 42) ∈ hubLines wifiDb
      ∧ (pyFormat08X 42).length = 8
      ∧ hexStringVal (pyFormat08X 42) = 42 :=
  ⟨((claim_C7_hub_serial wifiDb).1 ("Hub", 42) (by decide) (by norm_num)).1,
   ((claim_C7_hub_serial wifiDb).1 ("Hub", 42) (by decide) (by norm_num)).2.1,
   ((claim_C7_hub_serial wifiDb).1 ("Hub", 42) (by decide) (by norm_num)).2.2.2⟩

/-- C8 counterexample: the run on the empty database completes, yet its output
opens two `<div>`s (`hub_info` and `areas`) and closes only one — the `areas`
container div opened at parse.py line 163 is never closed, so not every opened
structural element is closed before the output ends. -/
theorem claim_C8_counterexample :
    (dumpproject emptyDb).2 = none
      ∧ tagCount "<div" (dumpproject emptyDb).1
          ≠ tagCount "</div" (dumpproject emptyDb).1
      ∧ tagCount "<div" (dumpproject emptyDb).1 = 2
      ∧ tagCount "</div" (dumpproject emptyDb).1 = 1 :=
  ⟨rfl, by decide, by rfl, by rfl⟩

/-- C8 (amended): in every run that completes (no non-root areas) and whose
wifi SSIDs contain no `'<'`, all `<ul>` elements balance and the `<div>`
opens exceed the closes by exactly one: the top-level `areas` container div is
opened and never closed, every other printed `<div>`/`<ul>` is closed before
the output ends. -/
theorem claim_C8_tag_balance_amended (db : Database)
    (hareas : ∀ a ∈ db.area, a.name = "root")
    (hssid : ∀ w ∈ db.wifiSettings, '<' ∉ w.ssid.data) :
    (dumpproject db).2 = none
      ∧ tagCount "<div" (dumpproject db).1
          = tagCount "</div" (dumpproject db).1 + 1
      ∧ tagCount "<ul" (dumpproject db).1
          = tagCount "</ul" (dumpproject db).1 := by
  have hout : dumpproject db = (headerLines db, none) :=
    dumpproject_of_no_nonroot hareas
  rw [hout]
  refine ⟨rfl, ?_, ?_⟩
  · show tagCount "<div" (headerLines db) = tagCount "</div" (headerLines db) + 1
    rw [tagCount_headerLines "<div" db (by rfl) (by rfl) (by rfl) hssid,
      tagCount_headerLines "</div" db (by rfl) (by rfl) (by rfl) hssid]
    rfl
  · show tagCount "<ul" (headerLines db) = tagCount "</ul" (headerLines db)
    rw [tagCount_headerLines "<ul" db (by rfl) (by rfl) (by rfl) hssid,
      tagCount_headerLines "</ul" db (by rfl) (by rfl) (by rfl) hssid]
    rfl

/-- C8 witness: a completing run with a hub row and an SSID without `'<'`. -/
theorem claim_C8_witness :
    (dumpproject wifiDb).2 = none
      ∧ tagCount "<div" (dumpproject wifiDb).1
          = tagCount "</div" (dumpproject wifiDb).1 + 1
      ∧ tagCount "<ul" (dumpproject wifiDb).1
          = tagCount "</ul" (dumpproject wifiDb).1 :=
  claim_C8_tag_balance_amended wifiDb (by decide) (by decide)

/-- C9: a device whose class-info id is in none of the Pico, occupancy-sensor
and daylight-sensor lists is rendered by the load-controller fragment
(designer tag, name, 8-digit uppercase-hex serial, firmware revision with
leading zeros stripped) and no programming-association query is executed for
it. -/
theorem claim_C9_load_controller_default (db : Database) (d : AreaDeviceRow)
    (hp : d.deviceClassInfoID ∉ picoDeviceClassInfoIds)
    (ho : d.deviceClassInfoID ∉ occSensorDeviceClassInfoIds)
    (hd : d.deviceClassInfoID ∉ daylightSensorDeviceClassInfoIds) :
    processDevice db d = (loadControllerLines d, [])
      ∧ loadControllerLines d
          = ["<div id='0x" ++ pyFormat08X d.serialNumber
               ++ "' class='load_controller'>",
             "    " ++ d.designerTag ++ ": " ++ d.name ++ " (SN: "
               ++ pyFormat08X d.serialNumber ++ ") (v" ++ lstripZeros d.fwRev
               ++ ")",
             "</div>"] := by
  refine ⟨?_, rfl⟩
  simp [processDevice, hp, ho, hd]

/-- C9 witness: the `kitchenDb` dimmer (class-info id 5) renders as a load
controller with no programming query. -/
theorem claim_C9_witness :
    processDevice kitchenDb kitchenLoadRow
      = (loadControllerLines kitchenLoadRow, []) :=
  (claim_C9_load_controller_default kitchenDb kitchenLoadRow
    (by decide) (by decide) (by decide)).1

/-- C10: the designer-tag field displayed in every device heading and in every
nested controlled-device item is the `ModelNumber` column of the relevant
`DeviceClassInfo` catalog row (not a `Device`-table attribute), and the
`ShortDescription` fetched by the same queries is displayed nowhere: the
emitted lines are invariant under changing it. -/
theorem claim_C10_designer_tag_provenance (db : Database) (areaID : Nat)
    (d : AreaDeviceRow) (r : ProgRow) (kind : String) (count : Nat)
    (s t : String) :
    (d ∈ areaDeviceQuery db areaID →
      ∃ ci ∈ db.deviceClassInfo,
        d.deviceClassInfoID = ci.deviceClassInfoID
          ∧ d.designerTag = ci.modelNumber)
    ∧ ((r ∈ picoProgrammedDevices db d.deviceID
          ∨ r ∈ occProgrammedDevices db d.deviceID
          ∨ r ∈ daylightProgrammedDevices db d.deviceID) →
      ∃ ci ∈ db.deviceClassInfo, r.modelNumber = ci.modelNumber)
    ∧ controlHeadingLine kind d count
        = "    " ++ d.designerTag ++ ": " ++ d.name ++ " (SN: "
          ++ pyFormat08X d.serialNumber ++ ") (This " ++ kind ++ " controls "
          ++ toString count ++ " devices)"
    ∧ progItemLines r
        = ["<li>",
           "        " ++ r.modelNumber ++ ": " ++ r.name ++ " (SN: "
             ++ pyFormat08X r.serialNumber ++ ")",
           "</li>"]
    ∧ processDevice db { d with shortDescr := s } = processDevice db d
    ∧ progItemLines { r with shortDescription := t } = progItemLines r := by
  refine ⟨?_, ?_, rfl, rfl, rfl, rfl⟩
  · intro h
    rcases mem_areaDeviceQuery h with ⟨ci, hci, h1, h2, _⟩
    exact ⟨ci, hci, h1, h2⟩
  · intro h
    rcases h with h | h | h
    · rcases mem_picoProgrammedDevices h with ⟨_, _, ci, hci, _, heq⟩
      exact ⟨ci, hci, by rw [heq]⟩
    · rcases mem_occProgrammedDevices h with ⟨_, _, ci, hci, _, heq⟩
      exact ⟨ci, hci, by rw [heq]⟩
    · rcases mem_daylightProgrammedDevices h with ⟨_, _, ci, hci, _, heq⟩
      exact ⟨ci, hci, by rw [heq]⟩

/-- C10 witness: the Pico of `dupDb` carries the `ModelNumber` of catalog row
21 as its designer tag, and the nested item row shows the catalog
`ModelNumber` "M1". -/
theorem claim_C10_witness :
    (∃ ci ∈ dupDb.deviceClassInfo,
      dupPicoRow.deviceClassInfoID = ci.deviceClassInfoID
        ∧ dupPicoRow.designerTag = ci.modelNumber)
      ∧ (∃ ci ∈ dupDb.deviceClassInfo,
        (⟨"Lamp", 5, "M1", "desc"⟩ : ProgRow).modelNumber = ci.modelNumber) :=
  ⟨(claim_C10_designer_tag_provenance dupDb 2 dupPicoRow
      ⟨"Lamp", 5, "M1", "desc"⟩ "Pico" 2 "x" "y").1 (by decide),
   (claim_C10_designer_tag_provenance dupDb 2 dupPicoRow
      ⟨"Lamp", 5, "M1", "desc"⟩ "Pico" 2 "x" "y").2.1 (Or.inl (by decide))⟩

end ViveParse
